import Mathlib

/-!
Verification of the end-point scaling engine in
opm/utility/ECLEndPointScaling.cpp.

The embedding models IEEE doubles by exact rationals.  The only NaN the
engine produces deliberately (std::nan in handleInvalidEndpoint) is
modelled by a dedicated constructor of the output type EffSat.  The
defensive size assertion of the vertical-scaling operations is modelled
by an Option result; construction-time throws are modelled by Except.
-/

/-- Unscaled saturation end points of one tabulated function
(TableEndPoints in the source): minimum, displacing, maximum. -/
structure TableEndPoints where
  low : ℚ
  disp : ℚ
  high : ℚ
deriving DecidableEq

/-- One evaluation request (SaturationAssoc in the source): cell index
plus saturation value. -/
structure SaturationAssoc where
  cell : ℕ
  sat : ℚ
deriving DecidableEq

/-- Policy for cells whose resolved scaled end points are invalid. -/
inductive InvalidEndpointBehaviour where
  | UseUnscaled
  | IgnorePoint
deriving DecidableEq

/-- One entry of the effective-saturation output vector: either an
ordinary value or the NaN sentinel pushed by the IgnorePoint policy. -/
inductive EffSat where
  | val (s : ℚ)
  | nan
deriving DecidableEq

/-- defaultedScaledSaturation from the source: use the input scaled
saturation if its magnitude is below the 1e20 sentinel, else the
fallback value from the table. -/
def defaultedScaledSaturation (s dflt : ℚ) : ℚ :=
  if |s| < 1e20 then s else dflt

/-- validSaturation from the source: not below zero and not above one. -/
def validSaturation (s : ℚ) : Bool :=
  !(decide (s < 0)) && !(decide (s > 1))

/-- validSaturations from the source: conjunction over a list of
saturations, accumulated exactly as std::accumulate does. -/
def validSaturations (sats : List ℚ) : Bool :=
  sats.foldl (fun result s => result && validSaturation s) true

/-- handleInvalidEndpoint, common body of the two-point and three-point
engines: UseUnscaled pushes the untouched input saturation, IgnorePoint
pushes NaN.  Each branch appends exactly one entry. -/
def handleInvalidEndpoint (b : InvalidEndpointBehaviour)
    (sp : SaturationAssoc) : EffSat :=
  match b with
  | .UseUnscaled => .val sp.sat
  | .IgnorePoint => .nan

/-- State of TwoPointScaling::Impl: per-cell scaled minimum and maximum
saturation arrays plus the invalid-endpoint policy. -/
structure TwoPointScaling where
  smin_ : List ℚ
  smax_ : List ℚ
  handle_invalid_ : InvalidEndpointBehaviour
deriving DecidableEq

/-- The TwoPointScaling::Impl constructor: throws invalid_argument on a
size mismatch between the two arrays, otherwise builds the object with
the UseUnscaled policy. -/
def TwoPointScaling.create (smin smax : List ℚ) :
    Except String TwoPointScaling :=
  if smin.length ≠ smax.length then
    Except.error
      "Size Mismatch Between Minimum and Maximum Saturation Arrays"
  else
    Except.ok ⟨smin, smax, InvalidEndpointBehaviour.UseUnscaled⟩

/-- TwoPointScaling::Impl::sMin: scaled connate saturation of a cell,
defaulted to the table low end point. -/
def TwoPointScaling.sMin (eps : TwoPointScaling) (cell : ℕ)
    (tep : TableEndPoints) : ℚ :=
  defaultedScaledSaturation (eps.smin_.getD cell 0) tep.low

/-- TwoPointScaling::Impl::sMax: scaled maximum saturation of a cell,
defaulted to the table high end point. -/
def TwoPointScaling.sMax (eps : TwoPointScaling) (cell : ℕ)
    (tep : TableEndPoints) : ℚ :=
  defaultedScaledSaturation (eps.smax_.getD cell 0) tep.high

/-- Loop body of TwoPointScaling::Impl::eval for one evaluation point. -/
def TwoPointScaling.evalPoint (eps : TwoPointScaling)
    (tep : TableEndPoints) (pt : SaturationAssoc) : EffSat :=
  if ¬ (validSaturations [eps.sMin pt.cell tep, eps.sMax pt.cell tep] = true) then
    handleInvalidEndpoint eps.handle_invalid_ pt
  else if ¬ (eps.sMin pt.cell tep < pt.sat) then
    EffSat.val tep.low
  else if ¬ (pt.sat < eps.sMax pt.cell tep) then
    EffSat.val tep.high
  else
    EffSat.val (tep.low +
      ((pt.sat - eps.sMin pt.cell tep)
        / (eps.sMax pt.cell tep - eps.sMin pt.cell tep))
      * (tep.high - tep.low))

/-- TwoPointScaling::Impl::eval: one output entry per input point. -/
def TwoPointScaling.eval (eps : TwoPointScaling) (tep : TableEndPoints)
    (sp : List SaturationAssoc) : List EffSat :=
  sp.map (eps.evalPoint tep)

/-- Loop body of TwoPointScaling::Impl::reverse for one point. -/
def TwoPointScaling.reversePoint (eps : TwoPointScaling)
    (tep : TableEndPoints) (pt : SaturationAssoc) : EffSat :=
  if ¬ (validSaturations [eps.sMin pt.cell tep, eps.sMax pt.cell tep] = true) then
    handleInvalidEndpoint eps.handle_invalid_ pt
  else if ¬ (tep.low < pt.sat) then
    EffSat.val (eps.sMin pt.cell tep)
  else if ¬ (pt.sat < tep.high) then
    EffSat.val (eps.sMax pt.cell tep)
  else
    EffSat.val (eps.sMin pt.cell tep +
      ((pt.sat - tep.low) / (tep.high - tep.low))
      * (eps.sMax pt.cell tep - eps.sMin pt.cell tep))

/-- TwoPointScaling::Impl::reverse: one output entry per input point. -/
def TwoPointScaling.reverse (eps : TwoPointScaling) (tep : TableEndPoints)
    (sp : List SaturationAssoc) : List EffSat :=
  sp.map (eps.reversePoint tep)

/-- State of ThreePointScaling::Impl: per-cell scaled minimum,
displacing and maximum saturation arrays plus the policy. -/
structure ThreePointScaling where
  smin_ : List ℚ
  sdisp_ : List ℚ
  smax_ : List ℚ
  handle_invalid_ : InvalidEndpointBehaviour
deriving DecidableEq

/-- The ThreePointScaling::Impl constructor: throws invalid_argument
unless the three arrays have one common length. -/
def ThreePointScaling.create (smin sdisp smax : List ℚ) :
    Except String ThreePointScaling :=
  if sdisp.length ≠ smin.length ∨ sdisp.length ≠ smax.length then
    Except.error
      "Size Mismatch Between Minimum, Displacing and Maximum Saturation Arrays"
  else
    Except.ok ⟨smin, sdisp, smax, InvalidEndpointBehaviour.UseUnscaled⟩

/-- ThreePointScaling::Impl::sMin. -/
def ThreePointScaling.sMin (eps : ThreePointScaling) (cell : ℕ)
    (tep : TableEndPoints) : ℚ :=
  defaultedScaledSaturation (eps.smin_.getD cell 0) tep.low

/-- ThreePointScaling::Impl::sDisp. -/
def ThreePointScaling.sDisp (eps : ThreePointScaling) (cell : ℕ)
    (tep : TableEndPoints) : ℚ :=
  defaultedScaledSaturation (eps.sdisp_.getD cell 0) tep.disp

/-- ThreePointScaling::Impl::sMax. -/
def ThreePointScaling.sMax (eps : ThreePointScaling) (cell : ℕ)
    (tep : TableEndPoints) : ℚ :=
  defaultedScaledSaturation (eps.smax_.getD cell 0) tep.high

/-- Loop body of ThreePointScaling::Impl::eval for one point. -/
def ThreePointScaling.evalPoint (eps : ThreePointScaling)
    (tep : TableEndPoints) (pt : SaturationAssoc) : EffSat :=
  if ¬ (validSaturations
      [eps.sMin pt.cell tep, eps.sDisp pt.cell tep, eps.sMax pt.cell tep] = true) then
    handleInvalidEndpoint eps.handle_invalid_ pt
  else if ¬ (eps.sMin pt.cell tep < pt.sat) then
    EffSat.val tep.low
  else if ¬ (pt.sat < eps.sMax pt.cell tep) then
    EffSat.val tep.high
  else if pt.sat < eps.sDisp pt.cell tep then
    EffSat.val (tep.low +
      ((pt.sat - eps.sMin pt.cell tep)
        / (eps.sDisp pt.cell tep - eps.sMin pt.cell tep))
      * (tep.disp - tep.low))
  else
    EffSat.val (tep.disp +
      ((pt.sat - eps.sDisp pt.cell tep)
        / (eps.sMax pt.cell tep - eps.sDisp pt.cell tep))
      * (tep.high - tep.disp))

/-- ThreePointScaling::Impl::eval: one output entry per input point. -/
def ThreePointScaling.eval (eps : ThreePointScaling) (tep : TableEndPoints)
    (sp : List SaturationAssoc) : List EffSat :=
  sp.map (eps.evalPoint tep)

/-- Loop body of ThreePointScaling::Impl::reverse for one point. -/
def ThreePointScaling.reversePoint (eps : ThreePointScaling)
    (tep : TableEndPoints) (pt : SaturationAssoc) : EffSat :=
  if ¬ (validSaturations
      [eps.sMin pt.cell tep, eps.sDisp pt.cell tep, eps.sMax pt.cell tep] = true) then
    handleInvalidEndpoint eps.handle_invalid_ pt
  else if ¬ (tep.low < pt.sat) then
    EffSat.val (eps.sMin pt.cell tep)
  else if ¬ (pt.sat < tep.high) then
    EffSat.val (eps.sMax pt.cell tep)
  else if pt.sat < tep.disp then
    EffSat.val (eps.sMin pt.cell tep +
      ((pt.sat - tep.low) / (tep.disp - tep.low))
      * (eps.sDisp pt.cell tep - eps.sMin pt.cell tep))
  else
    EffSat.val (eps.sDisp pt.cell tep +
      ((pt.sat - tep.disp) / (tep.high - tep.disp))
      * (eps.sMax pt.cell tep - eps.sDisp pt.cell tep))

/-- ThreePointScaling::Impl::reverse: one output entry per input point. -/
def ThreePointScaling.reverse (eps : ThreePointScaling)
    (tep : TableEndPoints) (sp : List SaturationAssoc) : List EffSat :=
  sp.map (eps.reversePoint tep)

/-- A saturation node of the unscaled function together with the function
value there (the sat and val members of FunctionValues::Point). -/
structure FunctionValue where
  sat : ℚ
  val : ℚ
deriving DecidableEq

/-- FunctionValues: the unscaled function value at the displacing and the
maximum tabulated saturation. -/
structure FunctionValues where
  disp : FunctionValue
  max : FunctionValue
deriving DecidableEq

/-- State of PureVerticalScaling::Impl: one scaled maximum function value
per cell. -/
structure PureVerticalScaling where
  fmax_ : List ℚ
deriving DecidableEq

/-- PureVerticalScaling::Impl::vertScale.  The source asserts that the
point and value vectors have the same size; the assertion is modelled as
the none result.  Each output entry is the input value times the ratio
of the per-cell maximum to the table maximum. -/
def PureVerticalScaling.vertScale (pv : PureVerticalScaling)
    (f : FunctionValues) (sp : List SaturationAssoc) (val : List ℚ) :
    Option (List ℚ) :=
  if sp.length = val.length then
    some ((sp.zip val).map fun py =>
      py.2 * (pv.fmax_.getD py.1.cell 0 / f.max.val))
  else
    none

/-- State of CritSatVerticalScaling::Impl: per-cell displacing
saturation, displacing value and maximum value. -/
structure CritSatVerticalScaling where
  sdisp_ : List ℚ
  fdisp_ : List ℚ
  fmax_ : List ℚ
deriving DecidableEq

/-- Loop body of CritSatVerticalScaling::Impl::vertScale for one point
with input value y.  The branch order of the source is preserved: left
segment first, then separation in function value (sepfv), then
separation in saturation (sep s), else the per-cell maximum. -/
def CritSatVerticalScaling.vertScalePoint (v : CritSatVerticalScaling)
    (f : FunctionValues) (pt : SaturationAssoc) (y : ℚ) : ℚ :=
  if ¬ (v.sdisp_.getD pt.cell 0 < pt.sat) then
    y * (v.fdisp_.getD pt.cell 0 / f.disp.val)
  else if f.disp.val < f.max.val then
    v.fdisp_.getD pt.cell 0 +
      ((y - f.disp.val) / (f.max.val - f.disp.val))
      * (v.fmax_.getD pt.cell 0 - v.fdisp_.getD pt.cell 0)
  else if f.max.sat < f.disp.sat then
    v.fdisp_.getD pt.cell 0 +
      ((pt.sat - f.disp.sat) / (f.max.sat - f.disp.sat))
      * (v.fmax_.getD pt.cell 0 - v.fdisp_.getD pt.cell 0)
  else
    v.fmax_.getD pt.cell 0

/-- CritSatVerticalScaling::Impl::vertScale.  The size assertion of the
source is modelled as the none result; the two table assertions on the
FunctionValues argument do not influence control flow and are left as
caller obligations, exactly as a release build executes the code. -/
def CritSatVerticalScaling.vertScale (v : CritSatVerticalScaling)
    (f : FunctionValues) (sp : List SaturationAssoc) (val : List ℚ) :
    Option (List ℚ) :=
  if sp.length = val.length then
    some ((sp.zip val).map fun py => v.vertScalePoint f py.1 py.2)
  else
    none

/-- Division guarded by strict positivity of the divisor, used to state
that every division the horizontal engines perform is reached only with
a strictly positive divisor. -/
def divChecked (a b : ℚ) : Option ℚ :=
  if 0 < b then some (a / b) else none

/-- TwoPointScaling eval with its single division guarded. -/
def TwoPointScaling.evalPointChecked (eps : TwoPointScaling)
    (tep : TableEndPoints) (pt : SaturationAssoc) : Option EffSat :=
  if ¬ (validSaturations [eps.sMin pt.cell tep, eps.sMax pt.cell tep] = true) then
    some (handleInvalidEndpoint eps.handle_invalid_ pt)
  else if ¬ (eps.sMin pt.cell tep < pt.sat) then
    some (EffSat.val tep.low)
  else if ¬ (pt.sat < eps.sMax pt.cell tep) then
    some (EffSat.val tep.high)
  else
    (divChecked (pt.sat - eps.sMin pt.cell tep)
        (eps.sMax pt.cell tep - eps.sMin pt.cell tep)).map
      fun t => EffSat.val (tep.low + t * (tep.high - tep.low))

/-- TwoPointScaling reverse with its single division guarded. -/
def TwoPointScaling.reversePointChecked (eps : TwoPointScaling)
    (tep : TableEndPoints) (pt : SaturationAssoc) : Option EffSat :=
  if ¬ (validSaturations [eps.sMin pt.cell tep, eps.sMax pt.cell tep] = true) then
    some (handleInvalidEndpoint eps.handle_invalid_ pt)
  else if ¬ (tep.low < pt.sat) then
    some (EffSat.val (eps.sMin pt.cell tep))
  else if ¬ (pt.sat < tep.high) then
    some (EffSat.val (eps.sMax pt.cell tep))
  else
    (divChecked (pt.sat - tep.low) (tep.high - tep.low)).map
      fun t => EffSat.val (eps.sMin pt.cell tep +
        t * (eps.sMax pt.cell tep - eps.sMin pt.cell tep))

/-- ThreePointScaling eval with both divisions guarded. -/
def ThreePointScaling.evalPointChecked (eps : ThreePointScaling)
    (tep : TableEndPoints) (pt : SaturationAssoc) : Option EffSat :=
  if ¬ (validSaturations
      [eps.sMin pt.cell tep, eps.sDisp pt.cell tep, eps.sMax pt.cell tep] = true) then
    some (handleInvalidEndpoint eps.handle_invalid_ pt)
  else if ¬ (eps.sMin pt.cell tep < pt.sat) then
    some (EffSat.val tep.low)
  else if ¬ (pt.sat < eps.sMax pt.cell tep) then
    some (EffSat.val tep.high)
  else if pt.sat < eps.sDisp pt.cell tep then
    (divChecked (pt.sat - eps.sMin pt.cell tep)
        (eps.sDisp pt.cell tep - eps.sMin pt.cell tep)).map
      fun t => EffSat.val (tep.low + t * (tep.disp - tep.low))
  else
    (divChecked (pt.sat - eps.sDisp pt.cell tep)
        (eps.sMax pt.cell tep - eps.sDisp pt.cell tep)).map
      fun t => EffSat.val (tep.disp + t * (tep.high - tep.disp))

/-- ThreePointScaling reverse with both divisions guarded. -/
def ThreePointScaling.reversePointChecked (eps : ThreePointScaling)
    (tep : TableEndPoints) (pt : SaturationAssoc) : Option EffSat :=
  if ¬ (validSaturations
      [eps.sMin pt.cell tep, eps.sDisp pt.cell tep, eps.sMax pt.cell tep] = true) then
    some (handleInvalidEndpoint eps.handle_invalid_ pt)
  else if ¬ (tep.low < pt.sat) then
    some (EffSat.val (eps.sMin pt.cell tep))
  else if ¬ (pt.sat < tep.high) then
    some (EffSat.val (eps.sMax pt.cell tep))
  else if pt.sat < tep.disp then
    (divChecked (pt.sat - tep.low) (tep.disp - tep.low)).map
      fun t => EffSat.val (eps.sMin pt.cell tep +
        t * (eps.sDisp pt.cell tep - eps.sMin pt.cell tep))
  else
    (divChecked (pt.sat - tep.disp) (tep.high - tep.disp)).map
      fun t => EffSat.val (eps.sDisp pt.cell tep +
        t * (eps.sMax pt.cell tep - eps.sDisp pt.cell tep))

/-- Sanity check: a two-point interpolation at the interval midpoint. -/
theorem two_point_concrete_scenario :
    TwoPointScaling.evalPoint ⟨[1/4], [3/4], .UseUnscaled⟩
    ⟨0, 0, 1⟩ ⟨0, 1/2⟩ = EffSat.val (1/2) := by
  norm_num [TwoPointScaling.evalPoint, TwoPointScaling.sMin,
    TwoPointScaling.sMax, defaultedScaledSaturation, validSaturations,
    validSaturation, abs_lt]

/-- Sanity check, the concrete scenario of the specification: table one
tenth, two fifths, four fifths, cell end points one fifth, one half,
nine tenths, input three fifths maps to one half. -/
theorem three_point_concrete_scenario :
    ThreePointScaling.evalPoint ⟨[1/5], [1/2], [9/10], .UseUnscaled⟩
    ⟨1/10, 2/5, 4/5⟩ ⟨0, 3/5⟩ = EffSat.val (1/2) := by
  norm_num [ThreePointScaling.evalPoint, ThreePointScaling.sMin,
    ThreePointScaling.sDisp, ThreePointScaling.sMax,
    defaultedScaledSaturation, validSaturations, validSaturation, abs_lt]

theorem validSaturations_pair (a b : ℚ) :
    validSaturations [a, b] = (validSaturation a && validSaturation b) := by
  simp [validSaturations, List.foldl]

theorem validSaturations_triple (a b c : ℚ) :
    validSaturations [a, b, c]
      = ((validSaturation a && validSaturation b) && validSaturation c) := by
  simp [validSaturations, List.foldl]

theorem validSaturation_iff (s : ℚ) :
    validSaturation s = true ↔ 0 ≤ s ∧ s ≤ 1 := by
  simp [validSaturation, not_lt]

theorem getElem?_zip_some {α β : Type} {as : List α} {bs : List β} {i : ℕ}
    {a : α} {b : β} (ha : as[i]? = some a) (hb : bs[i]? = some b) :
    (as.zip bs)[i]? = some (a, b) := by
  induction as generalizing bs i with
  | nil => simp at ha
  | cons x xs ih =>
    cases bs with
    | nil => simp at hb
    | cons y ys =>
      cases i with
      | zero =>
        simp only [List.getElem?_cons_zero, Option.some.injEq] at ha hb
        simp [List.zip_cons_cons, ha, hb]
      | succ n =>
        simp only [List.getElem?_cons_succ] at ha hb
        simpa [List.zip_cons_cons] using ih ha hb

/-- Claim C5: for every call to eval or reverse of TwoPointScaling or
ThreePointScaling, under either invalid-endpoint policy and regardless
of invalid points, the returned vector has exactly one entry per input
point, in input order. -/
theorem horizontal_output_length (eps2 : TwoPointScaling)
    (eps3 : ThreePointScaling) (tep : TableEndPoints)
    (sp : List SaturationAssoc) :
    (eps2.eval tep sp).length = sp.length ∧
    (eps2.reverse tep sp).length = sp.length ∧
    (eps3.eval tep sp).length = sp.length ∧
    (eps3.reverse tep sp).length = sp.length := by
  refine ⟨?_, ?_, ?_, ?_⟩ <;>
    simp [TwoPointScaling.eval, TwoPointScaling.reverse,
      ThreePointScaling.eval, ThreePointScaling.reverse]

/-- Claim C9: PureVerticalScaling vertScale fails exactly when the point
and value vectors disagree in length, and never fails for equal
lengths. -/
theorem pure_vertical_fails_iff_size_mismatch (pv : PureVerticalScaling)
    (f : FunctionValues) (sp : List SaturationAssoc) (val : List ℚ) :
    pv.vertScale f sp val = none ↔ sp.length ≠ val.length := by
  unfold PureVerticalScaling.vertScale
  split_ifs with h <;> simp [h]

/-- Witness for Claim C9 at a concrete mismatched input. -/
theorem pure_vertical_fails_iff_size_mismatch_witness :
    PureVerticalScaling.vertScale ⟨[1]⟩ ⟨⟨0, 1⟩, ⟨1, 1⟩⟩ [⟨0, 0⟩] [] = none :=
  (pure_vertical_fails_iff_size_mismatch ⟨[1]⟩ ⟨⟨0, 1⟩, ⟨1, 1⟩⟩
    [⟨0, 0⟩] []).mpr (by simp)

/-- Claim C6: constructing a TwoPointScaling from arrays of different
lengths fails with an invalid-argument error and yields no object, and
constructing a ThreePointScaling fails whenever the three arrays do not
all share one length. -/
theorem size_mismatch_construction_fails
    (smin smax smin3 sdisp3 smax3 : List ℚ)
    (h2 : smin.length ≠ smax.length)
    (h3 : ¬ (smin3.length = sdisp3.length ∧ sdisp3.length = smax3.length)) :
    (∃ e, TwoPointScaling.create smin smax = Except.error e) ∧
    (∃ e, ThreePointScaling.create smin3 sdisp3 smax3 = Except.error e) := by
  constructor
  · rw [TwoPointScaling.create, if_pos h2]
    exact ⟨_, rfl⟩
  · have hd : sdisp3.length ≠ smin3.length ∨ sdisp3.length ≠ smax3.length := by
      by_contra hn
      push_neg at hn
      exact h3 ⟨hn.1.symm, hn.2⟩
    rw [ThreePointScaling.create, if_pos hd]
    exact ⟨_, rfl⟩

/-- Witness for Claim C6: arrays of lengths ten and nine for the
two-point engine, and lengths one, one, two for the three-point one. -/
theorem size_mismatch_construction_fails_witness :
    (∃ e, TwoPointScaling.create (List.replicate 10 0) (List.replicate 9 0)
      = Except.error e) ∧
    (∃ e, ThreePointScaling.create [0] [0] [0, 0] = Except.error e) :=
  size_mismatch_construction_fails (List.replicate 10 0) (List.replicate 9 0)
    [0] [0] [0, 0] (by simp) (by simp)

/-- Claim C10: every division performed inside eval and reverse of the
two horizontal engines is reached only with a strictly positive divisor:
the guarded variants never fail and agree with the unguarded code. -/
theorem horizontal_divisions_positive (eps2 : TwoPointScaling)
    (eps3 : ThreePointScaling) (tep : TableEndPoints)
    (pt : SaturationAssoc) :
    eps2.evalPointChecked tep pt = some (eps2.evalPoint tep pt) ∧
    eps2.reversePointChecked tep pt = some (eps2.reversePoint tep pt) ∧
    eps3.evalPointChecked tep pt = some (eps3.evalPoint tep pt) ∧
    eps3.reversePointChecked tep pt = some (eps3.reversePoint tep pt) := by
  refine ⟨?_, ?_, ?_, ?_⟩
  · unfold TwoPointScaling.evalPointChecked TwoPointScaling.evalPoint
    split_ifs
    all_goals try rfl
    all_goals unfold divChecked
    all_goals rw [if_pos (by linarith)]
    all_goals rfl
  · unfold TwoPointScaling.reversePointChecked TwoPointScaling.reversePoint
    split_ifs
    all_goals try rfl
    all_goals unfold divChecked
    all_goals rw [if_pos (by linarith)]
    all_goals rfl
  · unfold ThreePointScaling.evalPointChecked ThreePointScaling.evalPoint
    split_ifs
    all_goals try rfl
    all_goals unfold divChecked
    all_goals rw [if_pos (by linarith)]
    all_goals rfl
  · unfold ThreePointScaling.reversePointChecked ThreePointScaling.reversePoint
    split_ifs
    all_goals try rfl
    all_goals unfold divChecked
    all_goals rw [if_pos (by linarith)]
    all_goals rfl

/-- Claim C1: for every call to TwoPointScaling eval and every point
whose resolved end points both lie in the unit interval, the output
entry is the table low end point when the saturation is at or below the
cell minimum, the table high end point when it is at or above the cell
maximum, and the linear interpolant between the table end points
otherwise. -/
theorem two_point_eval_branches (eps : TwoPointScaling)
    (tep : TableEndPoints) (sp : List SaturationAssoc) (i : ℕ)
    (pt : SaturationAssoc) (hpt : sp[i]? = some pt)
    (_hcell1 : pt.cell < eps.smin_.length)
    (_hcell2 : pt.cell < eps.smax_.length)
    (hLO : validSaturation (eps.sMin pt.cell tep) = true)
    (hHI : validSaturation (eps.sMax pt.cell tep) = true) :
    (pt.sat ≤ eps.sMin pt.cell tep →
      (eps.eval tep sp)[i]? = some (EffSat.val tep.low)) ∧
    (eps.sMin pt.cell tep < pt.sat → eps.sMax pt.cell tep ≤ pt.sat →
      (eps.eval tep sp)[i]? = some (EffSat.val tep.high)) ∧
    (eps.sMin pt.cell tep < pt.sat → pt.sat < eps.sMax pt.cell tep →
      (eps.eval tep sp)[i]? = some (EffSat.val (tep.low +
        ((pt.sat - eps.sMin pt.cell tep)
          / (eps.sMax pt.cell tep - eps.sMin pt.cell tep))
        * (tep.high - tep.low)))) := by
  have hmap : (eps.eval tep sp)[i]? = some (eps.evalPoint tep pt) := by
    rw [TwoPointScaling.eval, List.getElem?_map, hpt, Option.map_some']
  have hv : validSaturations [eps.sMin pt.cell tep, eps.sMax pt.cell tep]
      = true := by
    rw [validSaturations_pair, hLO, hHI]
    rfl
  refine ⟨?_, ?_, ?_⟩
  · intro h
    rw [hmap]
    unfold TwoPointScaling.evalPoint
    rw [if_neg (not_not_intro hv), if_pos (not_lt.mpr h)]
  · intro h1 h2
    rw [hmap]
    unfold TwoPointScaling.evalPoint
    rw [if_neg (not_not_intro hv), if_neg (not_not_intro h1),
      if_pos (not_lt.mpr h2)]
  · intro h1 h2
    rw [hmap]
    unfold TwoPointScaling.evalPoint
    rw [if_neg (not_not_intro hv), if_neg (not_not_intro h1),
      if_neg (not_not_intro h2)]

/-- Witness for Claim C1 at a concrete interpolation input. -/
theorem two_point_eval_branches_witness :
    (TwoPointScaling.eval ⟨[1/4], [3/4], InvalidEndpointBehaviour.UseUnscaled⟩
      ⟨0, 0, 1⟩ [⟨0, 1/2⟩])[0]? = some (EffSat.val (1/2)) := by
  have h := (two_point_eval_branches
    ⟨[1/4], [3/4], InvalidEndpointBehaviour.UseUnscaled⟩ ⟨0, 0, 1⟩
    [⟨0, 1/2⟩] 0 ⟨0, 1/2⟩ rfl (by norm_num) (by norm_num)
    (by norm_num [TwoPointScaling.sMin, defaultedScaledSaturation,
      validSaturation, abs_lt])
    (by norm_num [TwoPointScaling.sMax, defaultedScaledSaturation,
      validSaturation, abs_lt])).2.2
    (by norm_num [TwoPointScaling.sMin, defaultedScaledSaturation, abs_lt])
    (by norm_num [TwoPointScaling.sMax, defaultedScaledSaturation, abs_lt])
  rw [h]
  norm_num [TwoPointScaling.sMin, TwoPointScaling.sMax,
    defaultedScaledSaturation, abs_lt]

/-- Claim C4: a point whose resolved end points are invalid is mapped,
by eval and reverse of both horizontal engines, to its untouched input
saturation under the UseUnscaled policy and to NaN under IgnorePoint,
while the batch call never aborts and still produces one entry per
point. -/
theorem invalid_endpoint_policy (eps2 : TwoPointScaling)
    (eps3 : ThreePointScaling) (tep : TableEndPoints)
    (sp : List SaturationAssoc) (i : ℕ) (pt : SaturationAssoc)
    (hpt : sp[i]? = some pt)
    (h2 : validSaturations [eps2.sMin pt.cell tep, eps2.sMax pt.cell tep]
      = false)
    (h3 : validSaturations [eps3.sMin pt.cell tep, eps3.sDisp pt.cell tep,
      eps3.sMax pt.cell tep] = false) :
    (handleInvalidEndpoint InvalidEndpointBehaviour.UseUnscaled pt
        = EffSat.val pt.sat ∧
      handleInvalidEndpoint InvalidEndpointBehaviour.IgnorePoint pt
        = EffSat.nan) ∧
    (eps2.eval tep sp)[i]?
      = some (handleInvalidEndpoint eps2.handle_invalid_ pt) ∧
    (eps2.reverse tep sp)[i]?
      = some (handleInvalidEndpoint eps2.handle_invalid_ pt) ∧
    (eps3.eval tep sp)[i]?
      = some (handleInvalidEndpoint eps3.handle_invalid_ pt) ∧
    (eps3.reverse tep sp)[i]?
      = some (handleInvalidEndpoint eps3.handle_invalid_ pt) ∧
    (eps2.eval tep sp).length = sp.length ∧
    (eps2.reverse tep sp).length = sp.length ∧
    (eps3.eval tep sp).length = sp.length ∧
    (eps3.reverse tep sp).length = sp.length := by
  have hb2 : ¬ (validSaturations
      [eps2.sMin pt.cell tep, eps2.sMax pt.cell tep] = true) := by
    rw [h2]
    simp
  have hb3 : ¬ (validSaturations [eps3.sMin pt.cell tep,
      eps3.sDisp pt.cell tep, eps3.sMax pt.cell tep] = true) := by
    rw [h3]
    simp
  refine ⟨⟨rfl, rfl⟩, ?_, ?_, ?_, ?_, ?_, ?_, ?_, ?_⟩
  · rw [TwoPointScaling.eval, List.getElem?_map, hpt, Option.map_some']
    unfold TwoPointScaling.evalPoint
    rw [if_pos hb2]
  · rw [TwoPointScaling.reverse, List.getElem?_map, hpt, Option.map_some']
    unfold TwoPointScaling.reversePoint
    rw [if_pos hb2]
  · rw [ThreePointScaling.eval, List.getElem?_map, hpt, Option.map_some']
    unfold ThreePointScaling.evalPoint
    rw [if_pos hb3]
  · rw [ThreePointScaling.reverse, List.getElem?_map, hpt, Option.map_some']
    unfold ThreePointScaling.reversePoint
    rw [if_pos hb3]
  · simp [TwoPointScaling.eval]
  · simp [TwoPointScaling.reverse]
  · simp [ThreePointScaling.eval]
  · simp [ThreePointScaling.reverse]

/-- Witness for Claim C4: the invalid scaled minimum saturation 3/2,
under the UseUnscaled policy for the two-point engine and the
IgnorePoint policy for the three-point one. -/
theorem invalid_endpoint_policy_witness :
    (TwoPointScaling.eval ⟨[3/2], [3/4], InvalidEndpointBehaviour.UseUnscaled⟩
      ⟨0, 1/2, 1⟩ [⟨0, 7/10⟩])[0]? = some (EffSat.val (7/10)) ∧
    (ThreePointScaling.eval
      ⟨[3/2], [1/2], [3/4], InvalidEndpointBehaviour.IgnorePoint⟩
      ⟨0, 1/2, 1⟩ [⟨0, 7/10⟩])[0]? = some EffSat.nan := by
  have h := invalid_endpoint_policy
    ⟨[3/2], [3/4], InvalidEndpointBehaviour.UseUnscaled⟩
    ⟨[3/2], [1/2], [3/4], InvalidEndpointBehaviour.IgnorePoint⟩
    ⟨0, 1/2, 1⟩ [⟨0, 7/10⟩] 0 ⟨0, 7/10⟩ rfl
    (by norm_num [validSaturations, validSaturation, TwoPointScaling.sMin,
      TwoPointScaling.sMax, defaultedScaledSaturation, abs_lt])
    (by norm_num [validSaturations, validSaturation, ThreePointScaling.sMin,
      ThreePointScaling.sDisp, ThreePointScaling.sMax,
      defaultedScaledSaturation, abs_lt])
  exact ⟨h.2.1, h.2.2.2.1⟩

/-- Claim C3: for a table with low below high and a cell whose resolved
end points satisfy zero at most sLO, sLO below sHI, sHI at most one,
eval followed by reverse is the identity strictly inside the scaled
interval, and reverse followed by eval is the identity strictly inside
the table interval; in exact arithmetic the round trip is exact, hence
within any floating-point tolerance. -/
theorem two_point_round_trip (eps : TwoPointScaling)
    (tep : TableEndPoints) (pt : SaturationAssoc)
    (_hcell1 : pt.cell < eps.smin_.length)
    (_hcell2 : pt.cell < eps.smax_.length)
    (htep : tep.low < tep.high)
    (h0 : 0 ≤ eps.sMin pt.cell tep)
    (hlh : eps.sMin pt.cell tep < eps.sMax pt.cell tep)
    (h1 : eps.sMax pt.cell tep ≤ 1) :
    (eps.sMin pt.cell tep < pt.sat → pt.sat < eps.sMax pt.cell tep →
      ∃ e, eps.evalPoint tep pt = EffSat.val e ∧
        eps.reversePoint tep ⟨pt.cell, e⟩ = EffSat.val pt.sat) ∧
    (tep.low < pt.sat → pt.sat < tep.high →
      ∃ r, eps.reversePoint tep pt = EffSat.val r ∧
        eps.evalPoint tep ⟨pt.cell, r⟩ = EffSat.val pt.sat) := by
  have hvLO : validSaturation (eps.sMin pt.cell tep) = true :=
    (validSaturation_iff _).mpr ⟨h0, le_trans hlh.le h1⟩
  have hvHI : validSaturation (eps.sMax pt.cell tep) = true :=
    (validSaturation_iff _).mpr ⟨le_trans h0 hlh.le, h1⟩
  have hv : validSaturations [eps.sMin pt.cell tep, eps.sMax pt.cell tep]
      = true := by
    rw [validSaturations_pair, hvLO, hvHI]
    rfl
  have hrng : tep.high - tep.low ≠ 0 := by linarith
  have hden : eps.sMax pt.cell tep - eps.sMin pt.cell tep ≠ 0 := by linarith
  constructor
  · intro hs1 hs2
    refine ⟨tep.low +
      ((pt.sat - eps.sMin pt.cell tep)
        / (eps.sMax pt.cell tep - eps.sMin pt.cell tep))
      * (tep.high - tep.low), ?_, ?_⟩
    · unfold TwoPointScaling.evalPoint
      rw [if_neg (not_not_intro hv), if_neg (not_not_intro hs1),
        if_neg (not_not_intro hs2)]
    · have ht0 : 0 < (pt.sat - eps.sMin pt.cell tep)
          / (eps.sMax pt.cell tep - eps.sMin pt.cell tep) :=
        div_pos (by linarith) (by linarith)
      have ht1 : (pt.sat - eps.sMin pt.cell tep)
          / (eps.sMax pt.cell tep - eps.sMin pt.cell tep) < 1 :=
        (div_lt_one (by linarith)).mpr (by linarith)
      have hlo : tep.low < tep.low +
          ((pt.sat - eps.sMin pt.cell tep)
            / (eps.sMax pt.cell tep - eps.sMin pt.cell tep))
          * (tep.high - tep.low) := by
        nlinarith
      have hhi : tep.low +
          ((pt.sat - eps.sMin pt.cell tep)
            / (eps.sMax pt.cell tep - eps.sMin pt.cell tep))
          * (tep.high - tep.low) < tep.high := by
        nlinarith
      unfold TwoPointScaling.reversePoint
      rw [if_neg (not_not_intro hv), if_neg (not_not_intro hlo),
        if_neg (not_not_intro hhi)]
      have : eps.sMin pt.cell tep +
          ((tep.low +
            ((pt.sat - eps.sMin pt.cell tep)
              / (eps.sMax pt.cell tep - eps.sMin pt.cell tep))
            * (tep.high - tep.low) - tep.low) / (tep.high - tep.low))
          * (eps.sMax pt.cell tep - eps.sMin pt.cell tep) = pt.sat := by
        field_simp
        ring
      rw [this]
  · intro hs1 hs2
    refine ⟨eps.sMin pt.cell tep +
      ((pt.sat - tep.low) / (tep.high - tep.low))
      * (eps.sMax pt.cell tep - eps.sMin pt.cell tep), ?_, ?_⟩
    · unfold TwoPointScaling.reversePoint
      rw [if_neg (not_not_intro hv), if_neg (not_not_intro hs1),
        if_neg (not_not_intro hs2)]
    · have ht0 : 0 < (pt.sat - tep.low) / (tep.high - tep.low) :=
        div_pos (by linarith) (by linarith)
      have ht1 : (pt.sat - tep.low) / (tep.high - tep.low) < 1 :=
        (div_lt_one (by linarith)).mpr (by linarith)
      have hlo : eps.sMin pt.cell tep < eps.sMin pt.cell tep +
          ((pt.sat - tep.low) / (tep.high - tep.low))
          * (eps.sMax pt.cell tep - eps.sMin pt.cell tep) := by
        nlinarith
      have hhi : eps.sMin pt.cell tep +
          ((pt.sat - tep.low) / (tep.high - tep.low))
          * (eps.sMax pt.cell tep - eps.sMin pt.cell tep)
          < eps.sMax pt.cell tep := by
        nlinarith
      unfold TwoPointScaling.evalPoint
      rw [if_neg (not_not_intro hv), if_neg (not_not_intro hlo),
        if_neg (not_not_intro hhi)]
      have : tep.low +
          ((eps.sMin pt.cell tep +
            ((pt.sat - tep.low) / (tep.high - tep.low))
            * (eps.sMax pt.cell tep - eps.sMin pt.cell tep)
            - eps.sMin pt.cell tep)
          / (eps.sMax pt.cell tep - eps.sMin pt.cell tep))
          * (tep.high - tep.low) = pt.sat := by
        field_simp
        ring
      rw [this]

/-- Witness for Claim C3 at a concrete cell and saturation. -/
theorem two_point_round_trip_witness :
    ∃ e, TwoPointScaling.evalPoint
        ⟨[1/4], [3/4], InvalidEndpointBehaviour.UseUnscaled⟩
        ⟨0, 0, 1⟩ ⟨0, 1/2⟩ = EffSat.val e ∧
      TwoPointScaling.reversePoint
        ⟨[1/4], [3/4], InvalidEndpointBehaviour.UseUnscaled⟩
        ⟨0, 0, 1⟩ ⟨0, e⟩ = EffSat.val (1/2) :=
  (two_point_round_trip
    ⟨[1/4], [3/4], InvalidEndpointBehaviour.UseUnscaled⟩ ⟨0, 0, 1⟩
    ⟨0, 1/2⟩ (by norm_num) (by norm_num) (by norm_num)
    (by norm_num [TwoPointScaling.sMin, defaultedScaledSaturation, abs_lt])
    (by norm_num [TwoPointScaling.sMin, TwoPointScaling.sMax,
      defaultedScaledSaturation, abs_lt])
    (by norm_num [TwoPointScaling.sMax, defaultedScaledSaturation,
      abs_lt])).1
    (by norm_num [TwoPointScaling.sMin, defaultedScaledSaturation, abs_lt])
    (by norm_num [TwoPointScaling.sMax, defaultedScaledSaturation, abs_lt])

/-- Claim C2: each output entry of CritSatVerticalScaling vertScale is
the left-segment proportional rescale when the saturation is at or
below the cell displacing saturation, else the value-ratio rescale when
the table values separate, else the saturation-ratio rescale when the
table displacing saturation exceeds the table maximum saturation, else
the per-cell maximum; the value-ratio branch takes precedence, and in
the doubly degenerate table every point above the cell displacing
saturation yields the per-cell maximum. -/
theorem critsat_vert_scale_branches (v : CritSatVerticalScaling)
    (f : FunctionValues) (sp : List SaturationAssoc) (val : List ℚ)
    (i : ℕ) (pt : SaturationAssoc) (y : ℚ)
    (hlen : sp.length = val.length)
    (hsp : sp[i]? = some pt) (hval : val[i]? = some y)
    (_hc1 : pt.cell < v.sdisp_.length) (_hc2 : pt.cell < v.fdisp_.length)
    (_hc3 : pt.cell < v.fmax_.length) :
    ∃ out, v.vertScale f sp val = some out ∧
      (¬ v.sdisp_.getD pt.cell 0 < pt.sat →
        out[i]? = some (y * (v.fdisp_.getD pt.cell 0 / f.disp.val))) ∧
      (v.sdisp_.getD pt.cell 0 < pt.sat → f.disp.val < f.max.val →
        out[i]? = some (v.fdisp_.getD pt.cell 0 +
          ((y - f.disp.val) / (f.max.val - f.disp.val))
          * (v.fmax_.getD pt.cell 0 - v.fdisp_.getD pt.cell 0))) ∧
      (v.sdisp_.getD pt.cell 0 < pt.sat → ¬ f.disp.val < f.max.val →
        f.max.sat < f.disp.sat →
        out[i]? = some (v.fdisp_.getD pt.cell 0 +
          ((pt.sat - f.disp.sat) / (f.max.sat - f.disp.sat))
          * (v.fmax_.getD pt.cell 0 - v.fdisp_.getD pt.cell 0))) ∧
      (v.sdisp_.getD pt.cell 0 < pt.sat → ¬ f.disp.val < f.max.val →
        ¬ f.max.sat < f.disp.sat →
        out[i]? = some (v.fmax_.getD pt.cell 0)) ∧
      (f.max.val = f.disp.val → f.disp.sat = f.max.sat →
        v.sdisp_.getD pt.cell 0 < pt.sat →
        out[i]? = some (v.fmax_.getD pt.cell 0)) := by
  have hz : (sp.zip val)[i]? = some (pt, y) := getElem?_zip_some hsp hval
  have hout : ((sp.zip val).map fun py => v.vertScalePoint f py.1 py.2)[i]?
      = some (v.vertScalePoint f pt y) := by
    rw [List.getElem?_map, hz, Option.map_some']
  refine ⟨(sp.zip val).map fun py => v.vertScalePoint f py.1 py.2,
    ?_, ?_, ?_, ?_, ?_, ?_⟩
  · unfold CritSatVerticalScaling.vertScale
    rw [if_pos hlen]
  · intro h
    rw [hout]
    unfold CritSatVerticalScaling.vertScalePoint
    rw [if_pos h]
  · intro h1 hfv
    rw [hout]
    unfold CritSatVerticalScaling.vertScalePoint
    rw [if_neg (not_not_intro h1), if_pos hfv]
  · intro h1 hfv hss
    rw [hout]
    unfold CritSatVerticalScaling.vertScalePoint
    rw [if_neg (not_not_intro h1), if_neg hfv, if_pos hss]
  · intro h1 hfv hss
    rw [hout]
    unfold CritSatVerticalScaling.vertScalePoint
    rw [if_neg (not_not_intro h1), if_neg hfv, if_neg hss]
  · intro hveq hseq h1
    rw [hout]
    unfold CritSatVerticalScaling.vertScalePoint
    rw [if_neg (not_not_intro h1),
      if_neg (show ¬ f.disp.val < f.max.val by rw [hveq]; exact lt_irrefl _),
      if_neg (show ¬ f.max.sat < f.disp.sat by rw [hseq]; exact lt_irrefl _)]

/-- Witness for Claim C2 in the normal value-separated branch. -/
theorem critsat_vert_scale_branches_witness :
    ∃ out, CritSatVerticalScaling.vertScale ⟨[1/2], [2/5], [4/5]⟩
      ⟨⟨1/2, 1/2⟩, ⟨1, 1⟩⟩ [⟨0, 3/4⟩] [3/4] = some out ∧
      out[0]? = some (3/5) := by
  obtain ⟨out, hsome, hbr⟩ := critsat_vert_scale_branches
    ⟨[1/2], [2/5], [4/5]⟩ ⟨⟨1/2, 1/2⟩, ⟨1, 1⟩⟩ [⟨0, 3/4⟩] [3/4]
    0 ⟨0, 3/4⟩ (3/4) rfl rfl rfl (by norm_num) (by norm_num) (by norm_num)
  refine ⟨out, hsome, ?_⟩
  have h := hbr.2.1 (by norm_num) (by norm_num)
  rw [h]
  norm_num

/-- Claim C7 (amended): each output entry of PureVerticalScaling
vertScale is exactly the input value times the ratio of the per-cell
maximum to the table maximum, with no clamping and no saturation
dependence; when the table maximum is nonzero and every referenced cell
carries exactly that maximum, the output equals the input values. -/
theorem pure_vertical_linearity (pv : PureVerticalScaling)
    (f : FunctionValues) (sp : List SaturationAssoc) (val : List ℚ)
    (i : ℕ) (pt : SaturationAssoc) (y : ℚ)
    (hlen : sp.length = val.length)
    (hsp : sp[i]? = some pt) (hval : val[i]? = some y)
    (_hc : pt.cell < pv.fmax_.length) :
    ∃ out, pv.vertScale f sp val = some out ∧
      out[i]? = some (y * (pv.fmax_.getD pt.cell 0 / f.max.val)) ∧
      (f.max.val ≠ 0 →
        (∀ q ∈ sp, pv.fmax_.getD q.cell 0 = f.max.val) → out = val) := by
  refine ⟨(sp.zip val).map fun py =>
    py.2 * (pv.fmax_.getD py.1.cell 0 / f.max.val), ?_, ?_, ?_⟩
  · unfold PureVerticalScaling.vertScale
    rw [if_pos hlen]
  · rw [List.getElem?_map, getElem?_zip_some hsp hval, Option.map_some']
  · intro hne hall
    have hmap : ((sp.zip val).map fun py =>
        py.2 * (pv.fmax_.getD py.1.cell 0 / f.max.val))
        = (sp.zip val).map Prod.snd := by
      apply List.map_congr_left
      rintro ⟨q, w⟩ ha
      rw [hall q (List.of_mem_zip ha).1, div_self hne, mul_one]
    rw [hmap, List.map_snd_zip _ _ (le_of_eq hlen.symm)]

/-- Witness for Claim C7 with a nonzero table maximum carried by the
referenced cell, where scaling is the identity. -/
theorem pure_vertical_linearity_witness :
    ∃ out, PureVerticalScaling.vertScale ⟨[1]⟩ ⟨⟨0, 0⟩, ⟨1, 1⟩⟩
      [⟨0, 1/2⟩] [3] = some out ∧ out = [3] := by
  obtain ⟨out, hsome, hentry, hid⟩ := pure_vertical_linearity
    ⟨[1]⟩ ⟨⟨0, 0⟩, ⟨1, 1⟩⟩ [⟨0, 1/2⟩] [3] 0 ⟨0, 1/2⟩ 3
    rfl rfl rfl (by norm_num)
  exact ⟨out, hsome, hid (by norm_num) (by intro q hq; simp at hq; simp [hq])⟩

/-- Claim C7 as frozen fails at a table maximum of zero: although every
referenced cell carries exactly the table maximum, the output is not
the input values, since the ratio zero over zero is not one (NaN in the
source, zero in the rational model). -/
theorem pure_vertical_identity_counterexample :
    ([(⟨0, 1/2⟩ : SaturationAssoc)].length = ([1] : List ℚ).length) ∧
    (⟨[0]⟩ : PureVerticalScaling).fmax_.getD 0 0
      = (⟨⟨0, 0⟩, ⟨1, 0⟩⟩ : FunctionValues).max.val ∧
    PureVerticalScaling.vertScale ⟨[0]⟩ ⟨⟨0, 0⟩, ⟨1, 0⟩⟩
      [⟨0, 1/2⟩] [1] ≠ some [1] := by
  refine ⟨rfl, rfl, ?_⟩
  norm_num [PureVerticalScaling.vertScale, List.zip]

/-- Claim C8 (amended): a ThreePointScaling whose displacing array
equals its minimum array produces, on tables whose displacing node
coincides with the low node, exactly the eval output of the
TwoPointScaling built from the same minimum and maximum arrays, and
dually for a displacing array equal to the maximum array on tables
whose displacing node coincides with the high node. -/
theorem three_point_degenerate_eq_two_point (eps3 : ThreePointScaling)
    (eps2 : TwoPointScaling) (tep : TableEndPoints)
    (sp : List SaturationAssoc)
    (hmin : eps3.smin_ = eps2.smin_) (hmax : eps3.smax_ = eps2.smax_)
    (hpol : eps3.handle_invalid_ = eps2.handle_invalid_) :
    (eps3.sdisp_ = eps3.smin_ → tep.disp = tep.low →
      eps3.eval tep sp = eps2.eval tep sp) ∧
    (eps3.sdisp_ = eps3.smax_ → tep.disp = tep.high →
      eps3.eval tep sp = eps2.eval tep sp) := by
  constructor
  · intro hd hdl
    unfold ThreePointScaling.eval TwoPointScaling.eval
    apply List.map_congr_left
    intro pt _
    have hLO : eps3.sMin pt.cell tep = eps2.sMin pt.cell tep := by
      unfold ThreePointScaling.sMin TwoPointScaling.sMin
      rw [hmin]
    have hR : eps3.sDisp pt.cell tep = eps2.sMin pt.cell tep := by
      unfold ThreePointScaling.sDisp TwoPointScaling.sMin
      rw [hd, hmin, hdl]
    have hHI : eps3.sMax pt.cell tep = eps2.sMax pt.cell tep := by
      unfold ThreePointScaling.sMax TwoPointScaling.sMax
      rw [hmax]
    unfold ThreePointScaling.evalPoint TwoPointScaling.evalPoint
    rw [hLO, hR, hHI, hpol, hdl]
    have hvv : validSaturations [eps2.sMin pt.cell tep,
        eps2.sMin pt.cell tep, eps2.sMax pt.cell tep]
        = validSaturations [eps2.sMin pt.cell tep, eps2.sMax pt.cell tep] := by
      rw [validSaturations_pair, validSaturations_triple]
      cases validSaturation (eps2.sMin pt.cell tep) <;> simp
    rw [hvv]
    split_ifs
    all_goals first
      | rfl
      | (exfalso; linarith)
  · intro hd hdh
    unfold ThreePointScaling.eval TwoPointScaling.eval
    apply List.map_congr_left
    intro pt _
    have hLO : eps3.sMin pt.cell tep = eps2.sMin pt.cell tep := by
      unfold ThreePointScaling.sMin TwoPointScaling.sMin
      rw [hmin]
    have hR : eps3.sDisp pt.cell tep = eps2.sMax pt.cell tep := by
      unfold ThreePointScaling.sDisp TwoPointScaling.sMax
      rw [hd, hmax, hdh]
    have hHI : eps3.sMax pt.cell tep = eps2.sMax pt.cell tep := by
      unfold ThreePointScaling.sMax TwoPointScaling.sMax
      rw [hmax]
    unfold ThreePointScaling.evalPoint TwoPointScaling.evalPoint
    rw [hLO, hR, hHI, hpol, hdh]
    have hvv : validSaturations [eps2.sMin pt.cell tep,
        eps2.sMax pt.cell tep, eps2.sMax pt.cell tep]
        = validSaturations [eps2.sMin pt.cell tep, eps2.sMax pt.cell tep] := by
      rw [validSaturations_pair, validSaturations_triple]
      cases validSaturation (eps2.sMax pt.cell tep) <;> simp
    rw [hvv]
    split_ifs
    all_goals rfl

/-- Witness for Claim C8 on a table whose displacing node equals its
low node. -/
theorem three_point_degenerate_eq_two_point_witness :
    ThreePointScaling.eval
      ⟨[1/4], [1/4], [3/4], InvalidEndpointBehaviour.UseUnscaled⟩
      ⟨0, 0, 1⟩ [⟨0, 1/2⟩] =
    TwoPointScaling.eval ⟨[1/4], [3/4], InvalidEndpointBehaviour.UseUnscaled⟩
      ⟨0, 0, 1⟩ [⟨0, 1/2⟩] :=
  (three_point_degenerate_eq_two_point
    ⟨[1/4], [1/4], [3/4], InvalidEndpointBehaviour.UseUnscaled⟩
    ⟨[1/4], [3/4], InvalidEndpointBehaviour.UseUnscaled⟩
    ⟨0, 0, 1⟩ [⟨0, 1/2⟩] rfl rfl rfl).1 rfl rfl

/-- Claim C8 as frozen fails for a table whose displacing node differs
from its low node: with the displacing array equal to the minimum
array, three-point eval yields three quarters while two-point eval
yields one half at the same interior point. -/
theorem three_point_degenerate_counterexample :
    ThreePointScaling.eval
      ⟨[0], [0], [1], InvalidEndpointBehaviour.UseUnscaled⟩
      ⟨0, 1/2, 1⟩ [⟨0, 1/2⟩] ≠
    TwoPointScaling.eval ⟨[0], [1], InvalidEndpointBehaviour.UseUnscaled⟩
      ⟨0, 1/2, 1⟩ [⟨0, 1/2⟩] := by
  norm_num [ThreePointScaling.eval, TwoPointScaling.eval,
    ThreePointScaling.evalPoint, TwoPointScaling.evalPoint,
    ThreePointScaling.sMin, ThreePointScaling.sDisp, ThreePointScaling.sMax,
    TwoPointScaling.sMin, TwoPointScaling.sMax,
    defaultedScaledSaturation, validSaturations, validSaturation, abs_lt]
